import Mathlib

/-! Verification of the directory-listing core of the DirTree Browser
(an Electron app that shells out to an external enumeration tool `xls`).

Shallow embedding, translated from the source:
* the main process enumeration client (`listDirectory` together with its
  `RawFileEntry → TransformedEntry` mapping): the subprocess outcome becomes an
  explicit `ProcOutcome` value and JSON parsing becomes an explicit
  `parse : String → Option RawCliOutput` parameter, since both are external to
  the repository;
* the renderer's navigation state machine (`loadDirectory` plus the back / up /
  refresh button handlers): the listing obtained over IPC becomes an explicit
  `Except ListError TransformedOutput` argument, and DOM writes are dropped;
* the renderer's display comparator and sort, with the host locale's string
  comparison (`localeCompare`) as an explicit `nameCmp : String → String → Int`
  parameter. -/

namespace DirTreeBrowser

/-- The `type` field of the renderer's `FileEntry` and of the main process's
`TransformedEntry`: the union `'file' | 'directory' | 'symlink'`. -/
inductive EntryKind where
  | file
  | directory
  | symlink
deriving DecidableEq, Repr

/-- Raw entry emitted by the enumeration tool (interface `RawFileEntry` in the
main process): `permissions` and `file_type` are optional fields. -/
structure RawFileEntry where
  name : String
  size : Nat
  modified : String
  is_dir : Bool
  is_symlink : Bool
  permissions : Option String
  file_type : Option String
deriving DecidableEq, Repr

/-- The tool's whole stdout document (interface `RawCliOutput`). -/
structure RawCliOutput where
  path : String
  total : Nat
  entries : List RawFileEntry
deriving DecidableEq, Repr

/-- Normalized entry handed to the renderer (interface `TransformedEntry`). -/
structure TransformedEntry where
  name : String
  type : EntryKind
  size : Nat
  modified : String
  permissions : String
deriving DecidableEq, Repr

/-- The listing handed to the renderer (interface `TransformedOutput`, the
renderer's `DirectoryListing`). -/
structure TransformedOutput where
  path : String
  entries : List TransformedEntry
deriving DecidableEq, Repr

/-- The per-entry transformation in the main process's `listDirectory`:
`type` is `entry.is_dir ? 'directory' : entry.is_symlink ? 'symlink' : 'file'`
and `permissions` is `entry.permissions || '-'` (JavaScript `||` treats both a
missing field and the empty string as falsy). -/
def normalize (e : RawFileEntry) : TransformedEntry :=
  { name := e.name
    type := if e.is_dir then .directory else if e.is_symlink then .symlink else .file
    size := e.size
    modified := e.modified
    permissions :=
      match e.permissions with
      | some p => if p = "" then "-" else p
      | none => "-" }

/-- Error taxonomy of the spec. The first three are the three `reject` branches
of the main process's `listDirectory` (each message carries exactly this data);
`noHistoryError` appears in the spec's taxonomy only and is never produced by
the code, which is what claim C5 is about. -/
inductive ListError where
  | spawnError (cause : String)
  | toolError (code : Int) (stderr : String)
  | protocolError (raw : String)
  | noHistoryError
deriving DecidableEq, Repr

/-- Outcome of the spawned subprocess, as observed by the `close` / `error`
event handlers: either the spawn itself failed, or the process exited with a
code after the full stdout and stderr streams were collected. -/
inductive ProcOutcome where
  | spawnFailed (cause : String)
  | exited (code : Int) (stdout : String) (stderr : String)
deriving DecidableEq, Repr

/-- Argument vector of the single `spawn` call in the current main process
(`spawn(xlsPath, ['--format', 'json', '-a', '-l', dirPath])`). -/
def xlsArgs (dirPath : String) : List String :=
  ["--format", "json", "-a", "-l", dirPath]

/-- Argument vector of the single `spawn` call in the superseded main-process
variant also present in the repository
(`spawn(xlsPath, ['--json', '-a', '-l', dirPath])`). -/
def xlsArgsLegacy (dirPath : String) : List String :=
  ["--json", "-a", "-l", dirPath]

/-- The spawn calls `listDirectory(dirPath)` performs: the promise executor
contains exactly one `spawn`, run once per call. -/
def listDirectorySpawns (dirPath : String) : List (List String) :=
  [xlsArgs dirPath]

/-- The `close` / `error` handling of the main process's `listDirectory`:
on exit code 0 parse stdout and map the entries through the transformation
(resolve), rejecting with the parse failure message (carrying raw stdout) when
that throws; on a nonzero exit code reject with the exit code and captured
stderr; on a spawn error reject with the underlying cause. -/
def listDirectory (parse : String → Option RawCliOutput) (out : ProcOutcome) :
    Except ListError TransformedOutput :=
  match out with
  | .spawnFailed cause => .error (.spawnError cause)
  | .exited code stdout stderr =>
      if code = 0 then
        match parse stdout with
        | some raw => .ok { path := raw.path, entries := raw.entries.map normalize }
        | none => .error (.protocolError stdout)
      else .error (.toolError code stderr)

/-- C1: `normalize` is total (it is a Lean function, defined on every
`RawFileEntry`) and classifies: `is_dir` forces `directory` regardless of
`is_symlink`; otherwise `is_symlink` forces `symlink`; otherwise `file`. -/
theorem normalize_classification (e : RawFileEntry) :
    (e.is_dir = true → (normalize e).type = EntryKind.directory) ∧
    (e.is_dir = false → e.is_symlink = true → (normalize e).type = EntryKind.symlink) ∧
    (e.is_dir = false → e.is_symlink = false → (normalize e).type = EntryKind.file) := by
  refine ⟨fun h => ?_, fun h h2 => ?_, fun h h2 => ?_⟩ <;>
    simp [normalize, h] <;> simp [h2]

/-- Witness for C1: the three classification cases at concrete raw entries. -/
theorem normalize_classification_witness :
    (normalize ⟨"d", 0, "t", true, true, none, none⟩).type = EntryKind.directory ∧
    (normalize ⟨"s", 0, "t", false, true, none, none⟩).type = EntryKind.symlink ∧
    (normalize ⟨"f", 0, "t", false, false, none, none⟩).type = EntryKind.file :=
  ⟨(normalize_classification _).1 rfl,
   (normalize_classification _).2.1 rfl rfl,
   (normalize_classification _).2.2 rfl rfl⟩

/-- C2: the four mutually exclusive outcomes of a `listDirectory` call: spawn
failure rejects with a `SpawnError` carrying the cause; a nonzero exit code
rejects with a `ToolError` carrying that code and the captured stderr; exit
code 0 with parseable stdout resolves to the transformed listing; exit code 0
with unparseable stdout rejects with a `ProtocolError` carrying raw stdout. -/
theorem listDirectory_outcomes (parse : String → Option RawCliOutput) :
    (∀ cause, listDirectory parse (.spawnFailed cause) =
        .error (.spawnError cause)) ∧
    (∀ code stdout stderr, code ≠ 0 →
        listDirectory parse (.exited code stdout stderr) =
          .error (.toolError code stderr)) ∧
    (∀ stdout stderr raw, parse stdout = some raw →
        listDirectory parse (.exited 0 stdout stderr) =
          .ok { path := raw.path, entries := raw.entries.map normalize }) ∧
    (∀ stdout stderr, parse stdout = none →
        listDirectory parse (.exited 0 stdout stderr) =
          .error (.protocolError stdout)) := by
  refine ⟨fun cause => rfl, fun code stdout stderr h => ?_,
    fun stdout stderr raw h => ?_, fun stdout stderr h => ?_⟩ <;>
    simp [listDirectory, h]

/-- Witness for C2: all four outcomes at a concrete parse function, concrete
exit codes and concrete streams. -/
theorem listDirectory_outcomes_witness :
    (listDirectory (fun s => if s = "ok" then some ⟨"/r", 0, []⟩ else none)
        (.spawnFailed "ENOENT") = .error (.spawnError "ENOENT")) ∧
    (listDirectory (fun s => if s = "ok" then some ⟨"/r", 0, []⟩ else none)
        (.exited 2 "" "permission denied") =
      .error (.toolError 2 "permission denied")) ∧
    (listDirectory (fun s => if s = "ok" then some ⟨"/r", 0, []⟩ else none)
        (.exited 0 "ok" "") = .ok { path := "/r", entries := [] }) ∧
    (listDirectory (fun s => if s = "ok" then some ⟨"/r", 0, []⟩ else none)
        (.exited 0 "garbage" "") = .error (.protocolError "garbage")) :=
  ⟨(listDirectory_outcomes _).1 "ENOENT",
   (listDirectory_outcomes _).2.1 2 "" "permission denied" (by decide),
   (listDirectory_outcomes _).2.2.1 "ok" "" ⟨"/r", 0, []⟩ (by simp),
   (listDirectory_outcomes _).2.2.2 "garbage" "" (by simp)⟩

/-- C7 (code bug): the current main process spawns the tool exactly once per
call with `--format json -a -l <path>`, but the superseded main-process variant
kept in the repository spawns it with `--json -a -l <path>`, contradicting the
current file's own comment that `--format json`, not `--json`, is to be used. -/
theorem listDirectory_spawn_args :
    listDirectorySpawns "/home/u" = [["--format", "json", "-a", "-l", "/home/u"]] ∧
    xlsArgsLegacy "/home/u" = ["--json", "-a", "-l", "/home/u"] ∧
    xlsArgsLegacy "/home/u" ≠ xlsArgs "/home/u" := by
  refine ⟨rfl, rfl, ?_⟩
  decide

/-- The renderer's mutable navigation state: globals `currentPath`,
`navigationHistory` and `historyIndex` (the latter starts at `-1`, hence an
integer). -/
structure NavState where
  currentPath : String
  navigationHistory : List String
  historyIndex : Int
deriving DecidableEq, Repr

/-- The renderer's initial navigation state (`currentPath = '/'`, empty
history, cursor `-1`). -/
def initialNavState : NavState :=
  { currentPath := "/", navigationHistory := [], historyIndex := -1 }

/-- JavaScript `list.slice(0, e)`: a negative end index counts from the end of
the array, an end index past the length is clamped. -/
def jsSliceTo (l : List String) (e : Int) : List String :=
  if e < 0 then l.take ((l.length : Int) + e).toNat else l.take e.toNat

/-- The renderer's `loadDirectory(path, addToHistory)`. The awaited IPC
listing is the explicit `result` argument. On success it sets `currentPath` to
the listing's authoritative path and, when `addToHistory`, truncates the
history to `slice(0, historyIndex + 1)`, pushes the new current path and moves
the cursor to the new tail; on failure the `catch` block only displays the
error, mutating nothing. The returned `Option ListError` is the error shown in
the tree container (`none` on success). -/
def loadDirectory (s : NavState) (result : Except ListError TransformedOutput)
    (addToHistory : Bool) : NavState × Option ListError :=
  match result with
  | .ok listing =>
      let s1 := { s with currentPath := listing.path }
      if addToHistory then
        let h := jsSliceTo s1.navigationHistory (s1.historyIndex + 1) ++ [s1.currentPath]
        ({ s1 with navigationHistory := h, historyIndex := (h.length : Int) - 1 }, none)
      else (s1, none)
  | .error e => (s, some e)

/-- The renderer's back-button handler: when `historyIndex > 0` it decrements
the cursor and replays `loadDirectory(navigationHistory[historyIndex], false)`
(the `replay` argument is that call's listing result); otherwise it does
nothing at all — no navigation, no state change, and no error value. -/
def goBack (s : NavState) (replay : Except ListError TransformedOutput) :
    NavState × Option ListError :=
  if 0 < s.historyIndex then
    loadDirectory { s with historyIndex := s.historyIndex - 1 } replay false
  else (s, none)

/-- The renderer's refresh-button handler:
`loadDirectory(currentPath, false)`. -/
def refresh (s : NavState) (result : Except ListError TransformedOutput) :
    NavState × Option ListError :=
  loadDirectory s result false

/-- The parent path computed by the up-button handler:
`currentPath.split('/').slice(0, -1).join('/') || '/'`. -/
def parentOf (p : String) : String :=
  let joined := String.intercalate "/" (p.splitOn "/").dropLast
  if joined = "" then "/" else joined

/-- The renderer's up-button handler: `loadDirectory(parent)` with the default
`addToHistory = true`. -/
def goUp (s : NavState) (result : Except ListError TransformedOutput) :
    NavState × Option ListError :=
  loadDirectory s result true

/-- C3: from history `[A, B, C]` with the cursor on `C`, a `goBack()` (with any
replay outcome) followed by a navigation that successfully lands on `D` with
history recording yields history `[A, B, D]` with the cursor at index 2 and
current path `D`: the forward entry `C` is discarded. -/
theorem history_truncation (A B C D : String)
    (rB : Except ListError TransformedOutput) (rD : TransformedOutput)
    (hD : rD.path = D) :
    (loadDirectory (goBack ⟨C, [A, B, C], 2⟩ rB).1 (.ok rD) true).1 =
      (⟨D, [A, B, D], 2⟩ : NavState) := by
  subst hD
  cases rB with
  | ok l => simp [goBack, loadDirectory, jsSliceTo, List.take]
  | error e => simp [goBack, loadDirectory, jsSliceTo, List.take]

/-- Witness for C3: the truncation law at concrete paths and listings. -/
theorem history_truncation_witness :
    ((⟨"/d", []⟩ : TransformedOutput).path = "/d") ∧
    (loadDirectory (goBack ⟨"/c", ["/a", "/b", "/c"], 2⟩
        (.ok ⟨"/b", []⟩)).1 (.ok ⟨"/d", []⟩) true).1 =
      (⟨"/d", ["/a", "/b", "/d"], 2⟩ : NavState) :=
  ⟨rfl, history_truncation "/a" "/b" "/c" "/d" (.ok ⟨"/b", []⟩) ⟨"/d", []⟩ rfl⟩

/-- Counterexample for C5: with `historyIndex = 0` the back handler performs no
navigation and mutates nothing, but it does not return a `NoHistoryError` — it
returns silently with no error value at all. -/
theorem goBack_no_NoHistoryError :
    (goBack { currentPath := "/a", navigationHistory := ["/a"], historyIndex := 0 }
        (.ok ⟨"/a", []⟩)).2 ≠ some ListError.noHistoryError ∧
    (goBack { currentPath := "/a", navigationHistory := ["/a"], historyIndex := 0 }
        (.ok ⟨"/a", []⟩)).2 = none := by
  refine ⟨?_, ?_⟩ <;> simp [goBack, loadDirectory]

/-- C5 as amended: invoked with `historyIndex ≤ 0`, the back handler performs
no navigation and leaves the `NavState` unchanged, and it surfaces no error
value (in particular no `NoHistoryError`): it is a silent no-op. -/
theorem goBack_noop (s : NavState) (replay : Except ListError TransformedOutput)
    (h : s.historyIndex ≤ 0) : goBack s replay = (s, none) := by
  have : ¬ 0 < s.historyIndex := not_lt.mpr h
  simp [goBack, this]

/-- Witness for C5 (amended): the silent no-op at a concrete state. -/
theorem goBack_noop_witness :
    ((0 : Int) ≤ 0) ∧
    goBack { currentPath := "/a", navigationHistory := ["/a"], historyIndex := 0 }
        (.error (.toolError 1 "boom")) =
      ({ currentPath := "/a", navigationHistory := ["/a"], historyIndex := 0 }, none) :=
  ⟨le_refl 0, goBack_noop _ _ (le_refl 0)⟩

/-- C6: a navigation whose subprocess exits nonzero leaves the `NavState`
exactly as it was (whether or not the navigation would have recorded history)
and surfaces the `ToolError`, carrying the exit code and captured stderr, for
display. -/
theorem navigate_error_atomic (parse : String → Option RawCliOutput)
    (s : NavState) (code : Int) (stdout stderr : String) (addToHistory : Bool)
    (h : code ≠ 0) :
    loadDirectory s (listDirectory parse (.exited code stdout stderr))
        addToHistory = (s, some (.toolError code stderr)) := by
  simp [listDirectory, loadDirectory, h]

/-- Witness for C6: error atomicity at a concrete state and exit code 2. -/
theorem navigate_error_atomic_witness :
    ((2 : Int) ≠ 0) ∧
    loadDirectory { currentPath := "/a", navigationHistory := ["/a"], historyIndex := 0 }
        (listDirectory (fun _ => none) (.exited 2 "" "permission denied")) true =
      ({ currentPath := "/a", navigationHistory := ["/a"], historyIndex := 0 },
        some (.toolError 2 "permission denied")) :=
  ⟨by decide, navigate_error_atomic (fun _ => none) _ 2 "" "permission denied" true
    (by decide)⟩

/-- C10: a `goBack()` from `historyIndex ≥ 1` whose replayed listing fails
commits the cursor decrement anyway: the resulting state has `historyIndex`
one less than before while `currentPath` and the history are unchanged, and
the replay's error is surfaced. -/
theorem goBack_failure_commits_cursor (s : NavState) (e : ListError)
    (h : 1 ≤ s.historyIndex) :
    goBack s (.error e) =
      ({ s with historyIndex := s.historyIndex - 1 }, some e) := by
  have : 0 < s.historyIndex := lt_of_lt_of_le zero_lt_one h
  simp [goBack, loadDirectory, this]

/-- Witness for C10: a failed replay from cursor 1 lands on cursor 0 with path
and history intact. -/
theorem goBack_failure_commits_cursor_witness :
    ((1 : Int) ≤ 1) ∧
    goBack { currentPath := "/b", navigationHistory := ["/a", "/b"], historyIndex := 1 }
        (.error (.toolError 2 "gone")) =
      ({ currentPath := "/b", navigationHistory := ["/a", "/b"], historyIndex := 0 },
        some (.toolError 2 "gone")) :=
  ⟨le_refl 1, goBack_failure_commits_cursor _ _ (le_refl 1)⟩

/-- The renderer's display comparator: directories first
(`a.type === 'directory' && b.type !== 'directory'` gives `-1`, the mirrored
test gives `1`), otherwise `a.name.localeCompare(b.name)`; the host's
locale-sensitive comparison is the explicit parameter `nameCmp`. -/
def entryCmp (nameCmp : String → String → Int) (a b : TransformedEntry) : Int :=
  if a.type = EntryKind.directory ∧ ¬ b.type = EntryKind.directory then -1
  else if ¬ a.type = EntryKind.directory ∧ b.type = EntryKind.directory then 1
  else nameCmp a.name b.name

/-- The comparator as a boolean order for sorting. -/
def entryLe (nameCmp : String → String → Int) (a b : TransformedEntry) : Bool :=
  decide (entryCmp nameCmp a b ≤ 0)

/-- The renderer's `[...listing.entries].sort(comparator)`: JavaScript sort
with a consistent comparator produces a permutation ordered by it, which a
merge sort models. -/
def sortEntries (nameCmp : String → String → Int) (l : List TransformedEntry) :
    List TransformedEntry :=
  l.mergeSort (entryLe nameCmp)

/-- What the tree container displays for a listing result: the sorted entries
on success, nothing (an error message instead) on failure. -/
def displayedEntries (nameCmp : String → String → Int)
    (result : Except ListError TransformedOutput) : List TransformedEntry :=
  match result with
  | .ok listing => sortEntries nameCmp listing.entries
  | .error _ => []

/-- The display comparator is transitive whenever the name comparison is. -/
theorem entryCmp_le_trans (nameCmp : String → String → Int)
    (htrans : ∀ s t u, nameCmp s t ≤ 0 → nameCmp t u ≤ 0 → nameCmp s u ≤ 0)
    (a b c : TransformedEntry) (hab : entryCmp nameCmp a b ≤ 0)
    (hbc : entryCmp nameCmp b c ≤ 0) : entryCmp nameCmp a c ≤ 0 := by
  by_cases hA : a.type = EntryKind.directory <;>
    by_cases hB : b.type = EntryKind.directory <;>
      by_cases hC : c.type = EntryKind.directory <;>
        simp [entryCmp, hA, hB, hC] at hab hbc ⊢ <;>
          exact htrans _ _ _ hab hbc

/-- The display comparator is total whenever the name comparison is. -/
theorem entryCmp_le_total (nameCmp : String → String → Int)
    (htotal : ∀ s t, nameCmp s t ≤ 0 ∨ nameCmp t s ≤ 0)
    (a b : TransformedEntry) :
    entryCmp nameCmp a b ≤ 0 ∨ entryCmp nameCmp b a ≤ 0 := by
  by_cases hA : a.type = EntryKind.directory <;>
    by_cases hB : b.type = EntryKind.directory <;>
      simp [entryCmp, hA, hB] <;>
        exact htotal _ _

/-- C8: for any listing, in the displayed order no non-directory ever precedes
a directory (directories come first regardless of name), and any two entries
of the same kind appear in name-comparison order. Stated for every name
comparison that is total and transitive, which the host's `localeCompare`
is. -/
theorem sort_order (nameCmp : String → String → Int)
    (htotal : ∀ s t, nameCmp s t ≤ 0 ∨ nameCmp t s ≤ 0)
    (htrans : ∀ s t u, nameCmp s t ≤ 0 → nameCmp t u ≤ 0 → nameCmp s u ≤ 0)
    (entries : List TransformedEntry) :
    (sortEntries nameCmp entries).Pairwise (fun a b =>
      (b.type = EntryKind.directory → a.type = EntryKind.directory) ∧
      (a.type = b.type → nameCmp a.name b.name ≤ 0)) := by
  have key := @List.sorted_mergeSort TransformedEntry (entryLe nameCmp)
    (fun a b c hab hbc => by
      simp only [entryLe, decide_eq_true_eq] at hab hbc ⊢
      exact entryCmp_le_trans nameCmp htrans a b c hab hbc)
    (fun a b => by
      simp only [entryLe, Bool.or_eq_true, decide_eq_true_eq]
      exact entryCmp_le_total nameCmp htotal a b)
    entries
  refine List.Pairwise.imp ?_ key
  intro a b hle
  simp only [entryLe, decide_eq_true_eq] at hle
  constructor
  · intro hbD
    by_contra haD
    simp [entryCmp, haD, hbD] at hle
  · intro hEq
    by_cases haD : a.type = EntryKind.directory
    · have hbD : b.type = EntryKind.directory := hEq ▸ haD
      simpa [entryCmp, haD, hbD] using hle
    · have hbD : ¬ b.type = EntryKind.directory := fun hb => haD (hEq ▸ hb)
      simpa [entryCmp, haD, hbD] using hle

/-- A degenerate name comparison (everything compares equal), used to witness
the sort theorems at a concrete input. -/
def constCmp : String → String → Int := fun _ _ => 0

/-- Witness for C8: the sort order property at a concrete two-entry listing,
with the hypotheses discharged at a concrete name comparison. -/
theorem sort_order_witness :
    (∀ s t : String, constCmp s t ≤ 0 ∨ constCmp t s ≤ 0) ∧
    (∀ s t u : String, constCmp s t ≤ 0 → constCmp t u ≤ 0 → constCmp s u ≤ 0) ∧
    (sortEntries constCmp
      [⟨"b.txt", EntryKind.file, 10, "2024-01-01T00:00:00Z", "-"⟩,
       ⟨"a", EntryKind.directory, 0, "2024-01-01T00:00:00Z", "-"⟩]).Pairwise
      (fun a b =>
        (b.type = EntryKind.directory → a.type = EntryKind.directory) ∧
        (a.type = b.type → constCmp a.name b.name ≤ 0)) :=
  ⟨fun _ _ => Or.inl (le_refl 0), fun _ _ _ _ _ => le_refl 0,
   sort_order constCmp (fun _ _ => Or.inl (le_refl 0)) (fun _ _ _ _ _ => le_refl 0) _⟩

/-- C9: `refresh` never touches `navigationHistory` or `historyIndex`
(whatever the listing result), and on success it sets `currentPath` to the
tool-reported authoritative path and displays exactly the freshly fetched
entries (reordered for display). -/
theorem refresh_frame (nameCmp : String → String → Int) (s : NavState)
    (result : Except ListError TransformedOutput) :
    ((refresh s result).1.navigationHistory = s.navigationHistory) ∧
    ((refresh s result).1.historyIndex = s.historyIndex) ∧
    (∀ l, result = .ok l → (refresh s result).1.currentPath = l.path ∧
      (displayedEntries nameCmp result).Perm l.entries) := by
  cases result with
  | ok l =>
      refine ⟨rfl, rfl, ?_⟩
      intro l2 hl
      obtain rfl : l = l2 := by injection hl
      exact ⟨rfl, List.mergeSort_perm _ _⟩
  | error e =>
      refine ⟨rfl, rfl, ?_⟩
      intro l2 hl
      exact absurd hl (by simp)

/-- Witness for C9: the refresh frame property at a concrete state whose
refresh reports a different authoritative path. -/
theorem refresh_frame_witness :
    ((refresh ⟨"/a", ["/a"], 0⟩ (.ok ⟨"/b", []⟩)).1.navigationHistory = ["/a"]) ∧
    ((refresh ⟨"/a", ["/a"], 0⟩ (.ok ⟨"/b", []⟩)).1.historyIndex = 0) ∧
    ((refresh ⟨"/a", ["/a"], 0⟩ (.ok ⟨"/b", []⟩)).1.currentPath = "/b") ∧
    ((displayedEntries constCmp (.ok (⟨"/b", []⟩ : TransformedOutput))).Perm []) :=
  ⟨(refresh_frame constCmp ⟨"/a", ["/a"], 0⟩ (.ok ⟨"/b", []⟩)).1,
   (refresh_frame constCmp ⟨"/a", ["/a"], 0⟩ (.ok ⟨"/b", []⟩)).2.1,
   ((refresh_frame constCmp ⟨"/a", ["/a"], 0⟩ (.ok ⟨"/b", []⟩)).2.2 ⟨"/b", []⟩ rfl).1,
   ((refresh_frame constCmp ⟨"/a", ["/a"], 0⟩ (.ok ⟨"/b", []⟩)).2.2 ⟨"/b", []⟩ rfl).2⟩

/-- The spec's `NavigationState` invariant: whenever the history is non-empty,
`0 ≤ historyIndex < len(history)` and `history[historyIndex] == currentPath`. -/
def navInvariant (s : NavState) : Prop :=
  s.navigationHistory ≠ [] →
    0 ≤ s.historyIndex ∧ s.historyIndex < (s.navigationHistory.length : Int) ∧
    s.navigationHistory[s.historyIndex.toNat]? = some s.currentPath

instance (s : NavState) : Decidable (navInvariant s) := by
  unfold navInvariant; infer_instance

/-- Counterexample for C4: start at the initial state, navigate successfully
to `/a` (the invariant holds), then refresh while the tool reports the
authoritative path `/b`. The refresh is committed (it succeeds), yet afterwards
`history = ["/a"]` while `currentPath = "/b"`, so
`history[historyIndex] == currentPath` fails. -/
theorem nav_invariant_counterexample :
    navInvariant (loadDirectory initialNavState (.ok ⟨"/a", []⟩) true).1 ∧
    ¬ navInvariant (refresh (loadDirectory initialNavState (.ok ⟨"/a", []⟩) true).1
        (.ok ⟨"/b", []⟩)).1 := by
  decide

/-- A successful history-recording `loadDirectory`, unfolded. -/
theorem loadDirectory_ok_record (s : NavState) (l : TransformedOutput) :
    loadDirectory s (.ok l) true =
      (⟨l.path, jsSliceTo s.navigationHistory (s.historyIndex + 1) ++ [l.path],
        ((jsSliceTo s.navigationHistory (s.historyIndex + 1) ++ [l.path]).length : Int) - 1⟩,
       none) := rfl

/-- The bounds half of the spec's invariant on its own: whenever the history
is non-empty, `0 ≤ historyIndex < len(history)`. -/
def navBounds (s : NavState) : Prop :=
  s.navigationHistory ≠ [] →
    0 ≤ s.historyIndex ∧ s.historyIndex < (s.navigationHistory.length : Int)

instance (s : NavState) : Decidable (navBounds s) := by
  unfold navBounds; infer_instance

/-- C4 as amended, in two halves. Bounds half, unconditional: every operation
— `loadDirectory` with any listing outcome and either history flag (covering
navigate, goUp, goHome and refresh), and `goBack` with any replay outcome
(including a failed replay) — preserves `0 ≤ historyIndex < len(history)`
whenever the history is non-empty. Path half: `history[historyIndex] ==
currentPath` is preserved by every history-recording navigation whatever its
outcome and by every failed refresh, but by a successful refresh only when the
tool-reported authoritative path equals the current path, and by a `goBack`
with successful replay only when the replay reports the history entry at the
new cursor (the counterexample shows a committed refresh adopting a changed
authoritative path breaks it). -/
theorem nav_invariant_preserved (s : NavState) :
    (navBounds s →
      (∀ result addToHistory, navBounds (loadDirectory s result addToHistory).1) ∧
      (∀ replay, navBounds (goBack s replay).1)) ∧
    (navInvariant s →
      (∀ result, navInvariant (loadDirectory s result true).1) ∧
      (∀ e, navInvariant (refresh s (.error e)).1) ∧
      (∀ l, l.path = s.currentPath → navInvariant (refresh s (.ok l)).1) ∧
      (∀ l, (0 < s.historyIndex →
          s.navigationHistory[(s.historyIndex - 1).toNat]? = some l.path) →
        navInvariant (goBack s (.ok l)).1)) := by
  constructor
  · intro hB
    constructor
    · intro result addToHistory
      cases result with
      | error e => exact hB
      | ok l =>
          cases addToHistory with
          | false =>
              intro hne
              exact hB hne
          | true =>
              rw [loadDirectory_ok_record]
              unfold navBounds
              dsimp only
              intro _
              have hlen : (jsSliceTo s.navigationHistory (s.historyIndex + 1) ++
                  [l.path]).length =
                  (jsSliceTo s.navigationHistory (s.historyIndex + 1)).length + 1 := by
                simp
              refine ⟨?_, ?_⟩ <;> rw [hlen] <;> push_cast <;> omega
    · intro replay
      by_cases hpos : 0 < s.historyIndex
      · cases replay with
        | error e =>
            have hstep : (goBack s (.error e)).1 =
                { s with historyIndex := s.historyIndex - 1 } := by
              simp [goBack, loadDirectory, hpos]
            rw [hstep]
            unfold navBounds
            dsimp only
            intro hne
            obtain ⟨h1, h2⟩ := hB hne
            exact ⟨by omega, by omega⟩
        | ok l =>
            have hstep : (goBack s (.ok l)).1 =
                ⟨l.path, s.navigationHistory, s.historyIndex - 1⟩ := by
              simp [goBack, loadDirectory, hpos]
            rw [hstep]
            unfold navBounds
            dsimp only
            intro hne
            obtain ⟨h1, h2⟩ := hB hne
            exact ⟨by omega, by omega⟩
      · have hstep : goBack s replay = (s, none) := by
          simp [goBack, hpos]
        rw [hstep]
        exact hB
  · intro hInv
    refine ⟨?_, ?_, ?_, ?_⟩
    · intro result
      cases result with
      | error e => exact hInv
      | ok l =>
          rw [loadDirectory_ok_record]
          intro _
          set pre := jsSliceTo s.navigationHistory (s.historyIndex + 1) with hpre
          have hlen : (pre ++ [l.path]).length = pre.length + 1 := by
            simp
          refine ⟨?_, ?_, ?_⟩
          · rw [hlen]; push_cast; omega
          · rw [hlen]; push_cast; omega
          · have htn : (((pre ++ [l.path]).length : Int) - 1).toNat = pre.length := by
              rw [hlen]; omega
            rw [htn]
            exact List.getElem?_concat_length pre l.path
    · intro e
      exact hInv
    · intro l hl
      have hs : (⟨l.path, s.navigationHistory, s.historyIndex⟩ : NavState) = s := by
        cases s
        simp_all
      show navInvariant (⟨l.path, s.navigationHistory, s.historyIndex⟩ : NavState)
      rw [hs]
      exact hInv
    · intro l hget
      by_cases hpos : 0 < s.historyIndex
      · have hstep : (goBack s (.ok l)).1 =
            ⟨l.path, s.navigationHistory, s.historyIndex - 1⟩ := by
          simp [goBack, loadDirectory, hpos]
        rw [hstep]
        unfold navInvariant
        dsimp only
        intro hne
        obtain ⟨h1, h2, h3⟩ := hInv hne
        exact ⟨by omega, by omega, hget hpos⟩
      · have hstep : goBack s (.ok l) = (s, none) := by
          simp [goBack, hpos]
        rw [hstep]
        exact hInv

/-- Witness for C4 (amended): at a concrete invariant-satisfying state, the
bounds half survives a refresh that adopts the changed authoritative path `/b`
and a `goBack` whose replay fails, and the path half survives all four
operation shapes under their stated conditions. -/
theorem nav_invariant_preserved_witness :
    navBounds ⟨"/a", ["/z", "/a"], 1⟩ ∧
    navInvariant ⟨"/a", ["/z", "/a"], 1⟩ ∧
    navBounds (refresh ⟨"/a", ["/z", "/a"], 1⟩ (.ok ⟨"/b", []⟩)).1 ∧
    navBounds (goBack ⟨"/a", ["/z", "/a"], 1⟩ (.error (.toolError 2 "gone"))).1 ∧
    navInvariant (loadDirectory ⟨"/a", ["/z", "/a"], 1⟩ (.ok ⟨"/c", []⟩) true).1 ∧
    navInvariant (refresh ⟨"/a", ["/z", "/a"], 1⟩ (.error (.toolError 1 "x"))).1 ∧
    navInvariant (refresh ⟨"/a", ["/z", "/a"], 1⟩ (.ok ⟨"/a", []⟩)).1 ∧
    navInvariant (goBack ⟨"/a", ["/z", "/a"], 1⟩ (.ok ⟨"/z", []⟩)).1 :=
  ⟨by decide, by decide,
   ((nav_invariant_preserved ⟨"/a", ["/z", "/a"], 1⟩).1 (by decide)).1
     (.ok ⟨"/b", []⟩) false,
   ((nav_invariant_preserved ⟨"/a", ["/z", "/a"], 1⟩).1 (by decide)).2
     (.error (.toolError 2 "gone")),
   ((nav_invariant_preserved ⟨"/a", ["/z", "/a"], 1⟩).2 (by decide)).1 (.ok ⟨"/c", []⟩),
   ((nav_invariant_preserved ⟨"/a", ["/z", "/a"], 1⟩).2 (by decide)).2.1 (.toolError 1 "x"),
   ((nav_invariant_preserved ⟨"/a", ["/z", "/a"], 1⟩).2 (by decide)).2.2.1 ⟨"/a", []⟩ rfl,
   ((nav_invariant_preserved ⟨"/a", ["/z", "/a"], 1⟩).2 (by decide)).2.2.2 ⟨"/z", []⟩
     (fun _ => by decide)⟩

end DirTreeBrowser
